import Mathlib

/-
  Verification of the subscription reconciliation core of the comms backend.

  The definitions below are a shallow embedding of:
    - src/services/appstore.ts   (AppStoreService: validateReceipt,
      processNotification and its handlers, isSubscriptionActive,
      handleWebhookNotification)
    - src/services/database.ts   (DatabaseService: insertSubscriptionRecord,
      updateUserSubscriptionStatus, setHasPurchasedSubscriptionBefore,
      getSubscriptionByTransactionId, updateSubscriptionExpiredStatus)
    - the POST /api/webhooks/apple route.

  The Supabase store is modelled as an explicit value (lists of rows) threaded
  through every operation; timestamps are naturals (epoch milliseconds); JS
  `undefined`/absent fields are `Option`.  Database calls in the source never
  throw (every error is caught and turned into `null`/`false`), so each store
  operation returns its result value together with the possibly-updated store;
  which underlying Supabase calls succeed is an explicit environment `DbEnv`.
  The Discord notification calls are external, swallow their own errors and
  touch no store state, so they do not appear in the store semantics.
-/

namespace Comms

/-- The SUBSCRIPTION_PRODUCTS constant from the types module. -/
def SUBSCRIPTION_PRODUCTS : List String :=
  ["com.comms.comms.premium_weekly",
   "com.comms.comms.premium_monthly",
   "com.comms.comms.premium_yearly"]

/-- Decoded Apple transaction payload (the fields the core reads).  Every
field is optional in the library's type. -/
structure JWSTransactionDecodedPayload where
  originalTransactionId : Option String
  productId : Option String
  purchaseDate : Option Nat
  expiresDate : Option Nat
  appAccountToken : Option String
  deriving Repr, DecidableEq

/-- A persisted row of the `subscriptions` table.  `transaction_id` is the
unique conflict key.  The `expired` column exists in the table (it is the
target of updateSubscriptionExpiredStatus) though the upsert payload never
sets it. -/
structure SubscriptionRecord where
  user_id : String
  product_id : String
  transaction_id : String
  environment : String
  purchased_at : Nat
  expired : Bool
  deriving Repr, DecidableEq

/-- A persisted row of the `profiles` table (the fields the core touches). -/
structure UserProfile where
  user_id : String
  subscribed : Bool
  has_purchased_subscription_before : Bool
  one_time_unlock : Bool
  subscribed_updated_time : Option Nat
  deriving Repr, DecidableEq

/-- The persistent store: both tables. -/
structure Store where
  subscriptions : List SubscriptionRecord
  profiles : List UserProfile
  deriving Repr, DecidableEq

/-- Which Supabase calls succeed during a run.  In the source each database
method catches every error and reports failure by returning null/false. -/
structure DbEnv where
  insertOk : Bool
  updateSubscribedOk : Bool
  setEverPurchasedOk : Bool
  updateExpiredOk : Bool
  deriving Repr, DecidableEq

/-- Ambient context of a request: database environment, current time
(`new Date()` / `Date.now()`), and `config.apple.environment`. -/
structure Ctx where
  db : DbEnv
  now : Nat
  appleEnvironment : String
  deriving Repr, DecidableEq

/-- The upsert payload of insertSubscriptionRecord: a SubscriptionRecord
without id/created_at/updated_at (and without `expired`, which the caller
never passes). -/
structure SubscriptionInsert where
  user_id : String
  product_id : String
  transaction_id : String
  environment : String
  purchased_at : Nat
  deriving Repr, DecidableEq

/-- Effect on the `subscriptions` table of
`.upsert(subscription, onConflict transaction_id, ignoreDuplicates false)`:
if a row with the payload's transaction_id exists, its payload columns are
overwritten in place (columns absent from the payload, such as `expired`,
keep their value); otherwise a fresh row is appended with `expired` at its
column default (false). -/
def applyUpsert (subs : List SubscriptionRecord) (p : SubscriptionInsert) :
    List SubscriptionRecord :=
  if subs.any (fun r => r.transaction_id = p.transaction_id) then
    subs.map (fun r =>
      if r.transaction_id = p.transaction_id then
        { r with
          user_id := p.user_id
          product_id := p.product_id
          environment := p.environment
          purchased_at := p.purchased_at }
      else r)
  else
    subs ++ [{ user_id := p.user_id
               product_id := p.product_id
               transaction_id := p.transaction_id
               environment := p.environment
               purchased_at := p.purchased_at
               expired := false }]

/-- DatabaseService.insertSubscriptionRecord: upsert by transaction_id,
returning the resulting row, or null when the Supabase call errors (the error
is logged, never thrown). -/
def insertSubscriptionRecord (env : DbEnv) (store : Store)
    (p : SubscriptionInsert) : Option SubscriptionRecord × Store :=
  if env.insertOk then
    let subs := applyUpsert store.subscriptions p
    (subs.find? (fun r => r.transaction_id = p.transaction_id),
     { store with subscriptions := subs })
  else
    (none, store)

/-- DatabaseService.updateUserSubscriptionStatus: set `subscribed` and
`subscribed_updated_time` on the rows of `profiles` with the given user_id;
returns false (store untouched) when the Supabase call errors. -/
def updateUserSubscriptionStatus (env : DbEnv) (now : Nat) (store : Store)
    (userId : String) (subscribedValue : Bool) : Bool × Store :=
  if env.updateSubscribedOk then
    (true,
     { store with
       profiles := store.profiles.map (fun p =>
         if p.user_id = userId then
           { p with
             subscribed := subscribedValue
             subscribed_updated_time := some now }
         else p) })
  else
    (false, store)

/-- DatabaseService.setHasPurchasedSubscriptionBefore: write
`has_purchased_subscription_before := true` on the rows of `profiles` with
the given user_id; returns false (store untouched) on error. -/
def setHasPurchasedSubscriptionBefore (env : DbEnv) (store : Store)
    (userId : String) : Bool × Store :=
  if env.setEverPurchasedOk then
    (true,
     { store with
       profiles := store.profiles.map (fun p =>
         if p.user_id = userId then
           { p with has_purchased_subscription_before := true }
         else p) })
  else
    (false, store)

/-- DatabaseService.getSubscriptionByTransactionId: single-row lookup on the
unique transaction_id key. -/
def getSubscriptionByTransactionId (store : Store) (transactionId : String) :
    Option SubscriptionRecord :=
  store.subscriptions.find? (fun r => r.transaction_id = transactionId)

/-- DatabaseService.updateSubscriptionExpiredStatus: write the `expired`
column of the rows of `subscriptions` with the given transaction_id.  (No
code path of the service layer ever calls this method.) -/
def updateSubscriptionExpiredStatus (env : DbEnv) (store : Store)
    (transactionId : String) (expiredValue : Bool) : Bool × Store :=
  if env.updateExpiredOk then
    (true,
     { store with
       subscriptions := store.subscriptions.map (fun r =>
         if r.transaction_id = transactionId then
           { r with expired := expiredValue }
         else r) })
  else
    (false, store)

/-- AppStoreService.isSubscriptionActive: productId must be one of the
recognized subscription products; then, when an expiresDate is present, it
must be strictly later than now; with no expiresDate the transaction counts
as active. -/
def isSubscriptionActive (t : JWSTransactionDecodedPayload) (now : Nat) :
    Bool :=
  match t.productId with
  | none => false
  | some pid =>
    if SUBSCRIPTION_PRODUCTS.contains pid then
      match t.expiresDate with
      | some e => decide (now < e)
      | none => true
    else false

/-- Outcome of verifier.verifyAndDecodeTransaction on a token: the call can
throw (caught by the caller), return a falsy value, or return a decoded
payload. -/
inductive DecodeOutcome where
  | failure
  | nullResult
  | ok (t : JWSTransactionDecodedPayload)
  deriving Repr, DecidableEq

/-- The validate request body (purchaseToken is Option: none models an
absent or empty, i.e. falsy, token). -/
structure ValidationRequest where
  purchaseToken : Option String
  userId : String
  productId : String
  environment : Option String
  deriving Repr, DecidableEq

/-- The validate response body; expiresDate kept as the numeric timestamp
that the source serialises to ISO8601. -/
structure ValidationResponse where
  success : Bool
  subscriptionActive : Bool
  transactionId : Option String
  expiresDate : Option Nat
  error : Option String
  deriving Repr, DecidableEq

/-- The `{success:false, error:"No receipt data provided"}` response. -/
def noReceiptResponse : ValidationResponse :=
  { success := false
    subscriptionActive := false
    transactionId := none
    expiresDate := none
    error := some "No receipt data provided" }

/-- AppStoreService.validateReceipt.  `decode` is the outcome of
verifyAndDecodeTransaction on request.purchaseToken.  A throwing or falsy
decode falls through to the "No receipt data provided" response.  On an
ownership mismatch the call returns a failure before touching the store.
When the transaction is active and has an originalTransactionId, the record
upsert and both profile-flag writes run in order; their returned status
values are discarded. -/
def validateReceipt (ctx : Ctx) (decode : DecodeOutcome)
    (request : ValidationRequest) (store : Store) :
    ValidationResponse × Store :=
  match request.purchaseToken with
  | none => (noReceiptResponse, store)
  | some _ =>
    match decode with
    | .failure => (noReceiptResponse, store)
    | .nullResult => (noReceiptResponse, store)
    | .ok t =>
      if t.appAccountToken ≠ some request.userId then
        ({ success := false
           subscriptionActive := false
           transactionId := none
           expiresDate := none
           error := some "Transaction does not belong to this user" }, store)
      else
        let isActive := isSubscriptionActive t ctx.now
        let store1 :=
          match t.originalTransactionId with
          | some tid =>
            if isActive then
              let p : SubscriptionInsert :=
                { user_id := request.userId
                  product_id := request.productId
                  transaction_id := tid
                  environment := request.environment.getD ctx.appleEnvironment
                  purchased_at := t.purchaseDate.getD ctx.now }
              let s1 := (insertSubscriptionRecord ctx.db store p).2
              let s2 :=
                (updateUserSubscriptionStatus ctx.db ctx.now s1
                  request.userId true).2
              (setHasPurchasedSubscriptionBefore ctx.db s2 request.userId).2
            else store
          | none => store
        ({ success := true
           subscriptionActive := isActive
           transactionId := t.originalTransactionId
           expiresDate := t.expiresDate
           error := none }, store1)

/-- A decoded webhook notification envelope (the fields processNotification
reads); signedTransactionInfo is none when data or the field is missing or
empty (falsy). -/
structure WebhookNotification where
  notificationType : String
  subtype : Option String
  signedTransactionInfo : Option String
  deriving Repr, DecidableEq

/-- handleSubscriptionActivated: subscribed := true, then the monotonic
purchase-history flag; the Discord send has no store effect. -/
def handleSubscriptionActivated (ctx : Ctx) (store : Store) (userId : String)
    (_t : JWSTransactionDecodedPayload) : Store :=
  let s1 := (updateUserSubscriptionStatus ctx.db ctx.now store userId true).2
  (setHasPurchasedSubscriptionBefore ctx.db s1 userId).2

/-- handleSubscriptionRenewed: when the transaction carries both an
originalTransactionId and a productId, upsert a record keyed by the
originalTransactionId; then subscribed := true. -/
def handleSubscriptionRenewed (ctx : Ctx) (store : Store) (userId : String)
    (t : JWSTransactionDecodedPayload) : Store :=
  let s1 :=
    match t.originalTransactionId, t.productId with
    | some tid, some pid =>
      (insertSubscriptionRecord ctx.db store
        { user_id := userId
          product_id := pid
          transaction_id := tid
          environment := ctx.appleEnvironment
          purchased_at := t.purchaseDate.getD ctx.now }).2
    | _, _ => store
  (updateUserSubscriptionStatus ctx.db ctx.now s1 userId true).2

/-- handleSubscriptionExpired (EXPIRED and DID_FAIL_TO_RENEW): only
subscribed := false; no write to the record's expired column. -/
def handleSubscriptionExpired (ctx : Ctx) (store : Store) (userId : String)
    (_t : JWSTransactionDecodedPayload) : Store :=
  (updateUserSubscriptionStatus ctx.db ctx.now store userId false).2

/-- handleRenewalStatusChange: informational only, no store effect. -/
def handleRenewalStatusChange (_ctx : Ctx) (store : Store) (_userId : String)
    (_t : JWSTransactionDecodedPayload) (_n : WebhookNotification) : Store :=
  store

/-- handleRefund: subscribed := false. -/
def handleRefund (ctx : Ctx) (store : Store) (userId : String)
    (_t : JWSTransactionDecodedPayload) : Store :=
  (updateUserSubscriptionStatus ctx.db ctx.now store userId false).2

/-- AppStoreService.processNotification.  `decode` is the outcome of
verifyAndDecodeTransaction on data.signedTransactionInfo.  Attribution looks
the decoded transaction's originalTransactionId (empty string when absent)
up in `subscriptions`; without a match the call reports failure and mutates
nothing.  Dispatch is on notificationType; an unrecognized type is a logged
no-op that still reports success. -/
def processNotification (ctx : Ctx) (notif : WebhookNotification)
    (decode : DecodeOutcome) (store : Store) : Bool × Store :=
  match notif.signedTransactionInfo with
  | none => (false, store)
  | some _ =>
    match decode with
    | .failure => (false, store)
    | .nullResult => (false, store)
    | .ok t =>
      match getSubscriptionByTransactionId store
          (t.originalTransactionId.getD "") with
      | none => (false, store)
      | some existing =>
        let userId := existing.user_id
        if notif.notificationType = "SUBSCRIBED" then
          (true, handleSubscriptionActivated ctx store userId t)
        else if notif.notificationType = "DID_RENEW" then
          (true, handleSubscriptionRenewed ctx store userId t)
        else if notif.notificationType = "EXPIRED" ∨
            notif.notificationType = "DID_FAIL_TO_RENEW" then
          (true, handleSubscriptionExpired ctx store userId t)
        else if notif.notificationType = "DID_CHANGE_RENEWAL_STATUS" then
          (true, handleRenewalStatusChange ctx store userId t notif)
        else if notif.notificationType = "REFUND" then
          (true, handleRefund ctx store userId t)
        else
          (true, store)

/-- Outcome of verifier.verifyAndDecodeNotification on the signed payload. -/
inductive NotificationDecodeOutcome where
  | failure
  | nullResult
  | ok (n : WebhookNotification)
  deriving Repr, DecidableEq

/-- AppStoreService.handleWebhookNotification: decode the envelope; a
throwing or falsy decode reports failure; otherwise processNotification. -/
def handleWebhookNotification (ctx : Ctx)
    (ndecode : NotificationDecodeOutcome) (tdecode : DecodeOutcome)
    (store : Store) : Bool × Store :=
  match ndecode with
  | .failure => (false, store)
  | .nullResult => (false, store)
  | .ok n => processNotification ctx n tdecode store

/-- The HTTP status and success flag the webhook route responds with. -/
structure HttpReply where
  status : Nat
  success : Bool
  deriving Repr, DecidableEq

/-- POST /api/webhooks/apple: 400 when the payload is not a string; then
200/{success:true} exactly when handleWebhookNotification reports success
and 500/{success:false} when it reports failure. -/
def appleWebhookRoute (ctx : Ctx) (payloadIsString : Bool)
    (ndecode : NotificationDecodeOutcome) (tdecode : DecodeOutcome)
    (store : Store) : HttpReply × Store :=
  if payloadIsString then
    let r := handleWebhookNotification ctx ndecode tdecode store
    if r.1 then ({ status := 200, success := true }, r.2)
    else ({ status := 500, success := false }, r.2)
  else
    ({ status := 400, success := false }, store)

/-! ## Concrete example data used by witnesses and counterexamples -/

/-- The weekly premium product id. -/
def weeklyProduct : String := "com.comms.comms.premium_weekly"

/-- A database environment in which every Supabase call succeeds. -/
def exDbOk : DbEnv :=
  { insertOk := true, updateSubscribedOk := true
    setEverPurchasedOk := true, updateExpiredOk := true }

/-- A database environment in which the subscribed-flag update fails while
everything else succeeds. -/
def exDbFlagFail : DbEnv :=
  { insertOk := true, updateSubscribedOk := false
    setEverPurchasedOk := true, updateExpiredOk := true }

/-- Request context with every database call succeeding, now = 1000. -/
def exCtx : Ctx := { db := exDbOk, now := 1000, appleEnvironment := "Production" }

/-- Request context whose subscribed-flag update fails. -/
def exCtxFlagFail : Ctx :=
  { db := exDbFlagFail, now := 1000, appleEnvironment := "Production" }

/-- A decoded transaction owned by userA, weekly product, active at 1000. -/
def exTxn : JWSTransactionDecodedPayload :=
  { originalTransactionId := some "tx1", productId := some weeklyProduct
    purchaseDate := some 500, expiresDate := some 2000
    appAccountToken := some "userA" }

/-- A validate request from userA carrying a purchase token. -/
def exReq : ValidationRequest :=
  { purchaseToken := some "tok", userId := "userA"
    productId := weeklyProduct, environment := none }

/-- userA's profile row with every flag clear. -/
def exProfile : UserProfile :=
  { user_id := "userA", subscribed := false
    has_purchased_subscription_before := false
    one_time_unlock := false, subscribed_updated_time := none }

/-- The stored record attributing transaction tx1 to userA. -/
def exRecord : SubscriptionRecord :=
  { user_id := "userA", product_id := weeklyProduct, transaction_id := "tx1"
    environment := "Production", purchased_at := 500, expired := false }

/-- Store with userA's profile and no subscription records. -/
def exStoreEmpty : Store := { subscriptions := [], profiles := [exProfile] }

/-- Store with userA's profile and the tx1 record. -/
def exStoreOne : Store := { subscriptions := [exRecord], profiles := [exProfile] }

/-- A DID_RENEW notification envelope carrying a signed transaction. -/
def exRenewNotif : WebhookNotification :=
  { notificationType := "DID_RENEW", subtype := none
    signedTransactionInfo := some "sig" }

/-- An EXPIRED notification envelope carrying a signed transaction. -/
def exExpiredNotif : WebhookNotification :=
  { notificationType := "EXPIRED", subtype := none
    signedTransactionInfo := some "sig" }

/-- A SUBSCRIBED notification envelope carrying a signed transaction. -/
def exSubscribedNotif : WebhookNotification :=
  { notificationType := "SUBSCRIBED", subtype := none
    signedTransactionInfo := some "sig" }

/-- Between two store states, every profile's
has_purchased_subscription_before is either untouched or written to true:
the transition never writes false into the flag. -/
def hpOnlySetTrue (s s' : Store) : Prop :=
  s'.profiles.length = s.profiles.length ∧
  ∀ i (_ : i < s.profiles.length) (_ : i < s'.profiles.length),
    (s'.profiles[i]).has_purchased_subscription_before =
      (s.profiles[i]).has_purchased_subscription_before ∨
    (s'.profiles[i]).has_purchased_subscription_before = true

/-! ## Basic lemmas about the store operations -/

lemma subscriptions_updateUserSubscriptionStatus (env : DbEnv) (now : Nat)
    (s : Store) (uid : String) (b : Bool) :
    (updateUserSubscriptionStatus env now s uid b).2.subscriptions =
      s.subscriptions := by
  unfold updateUserSubscriptionStatus
  split <;> rfl

lemma subscriptions_setHasPurchasedSubscriptionBefore (env : DbEnv)
    (s : Store) (uid : String) :
    (setHasPurchasedSubscriptionBefore env s uid).2.subscriptions =
      s.subscriptions := by
  unfold setHasPurchasedSubscriptionBefore
  split <;> rfl

lemma profiles_insertSubscriptionRecord (env : DbEnv) (s : Store)
    (p : SubscriptionInsert) :
    (insertSubscriptionRecord env s p).2.profiles = s.profiles := by
  unfold insertSubscriptionRecord
  split <;> rfl

lemma subscriptions_insertSubscriptionRecord_ok (env : DbEnv) (s : Store)
    (p : SubscriptionInsert) (hok : env.insertOk = true) :
    (insertSubscriptionRecord env s p).2.subscriptions =
      applyUpsert s.subscriptions p := by
  unfold insertSubscriptionRecord
  rw [if_pos hok]

lemma subscribed_of_mem_updateUserSubscriptionStatus (env : DbEnv) (now : Nat)
    (s : Store) (uid : String) (b : Bool) (hok : env.updateSubscribedOk = true)
    (q : UserProfile)
    (hq : q ∈ (updateUserSubscriptionStatus env now s uid b).2.profiles)
    (huid : q.user_id = uid) : q.subscribed = b := by
  unfold updateUserSubscriptionStatus at hq
  rw [if_pos hok] at hq
  obtain ⟨q0, _, rfl⟩ := List.mem_map.mp hq
  by_cases h : q0.user_id = uid
  · simp [h]
  · simp only [if_neg h] at huid ⊢
    exact absurd huid h

lemma mem_setHasPurchasedSubscriptionBefore_exists (env : DbEnv) (s : Store)
    (uid : String) (q : UserProfile)
    (hq : q ∈ (setHasPurchasedSubscriptionBefore env s uid).2.profiles) :
    ∃ q0 ∈ s.profiles, q.user_id = q0.user_id ∧ q.subscribed = q0.subscribed := by
  unfold setHasPurchasedSubscriptionBefore at hq
  by_cases hok : env.setEverPurchasedOk = true
  · rw [if_pos hok] at hq
    obtain ⟨q0, hq0, rfl⟩ := List.mem_map.mp hq
    by_cases h : q0.user_id = uid
    · exact ⟨q0, hq0, by simp [h]⟩
    · exact ⟨q0, hq0, by simp [h]⟩
  · rw [if_neg hok] at hq
    exact ⟨q, hq, rfl, rfl⟩

lemma hp_of_mem_setHasPurchasedSubscriptionBefore (env : DbEnv) (s : Store)
    (uid : String) (hok : env.setEverPurchasedOk = true) (q : UserProfile)
    (hq : q ∈ (setHasPurchasedSubscriptionBefore env s uid).2.profiles)
    (huid : q.user_id = uid) : q.has_purchased_subscription_before = true := by
  unfold setHasPurchasedSubscriptionBefore at hq
  rw [if_pos hok] at hq
  obtain ⟨q0, _, rfl⟩ := List.mem_map.mp hq
  by_cases h : q0.user_id = uid
  · simp [h]
  · simp only [if_neg h] at huid ⊢
    exact absurd huid h

lemma any_of_find?_eq_some {l : List SubscriptionRecord}
    {p : SubscriptionRecord → Bool} {r : SubscriptionRecord}
    (h : l.find? p = some r) : l.any p = true :=
  List.any_eq_true.mpr ⟨r, List.mem_of_find?_eq_some h, List.find?_some h⟩

lemma find?_applyUpsert (subs : List SubscriptionRecord)
    (p : SubscriptionInsert) (r : SubscriptionRecord)
    (h : subs.find? (fun x => x.transaction_id = p.transaction_id) = some r) :
    (applyUpsert subs p).find?
        (fun x => x.transaction_id = p.transaction_id) =
      some { r with
             user_id := p.user_id
             product_id := p.product_id
             environment := p.environment
             purchased_at := p.purchased_at } := by
  induction subs with
  | nil => simp at h
  | cons a l ih =>
    by_cases ha : a.transaction_id = p.transaction_id
    · rw [List.find?_cons_of_pos _ (by simp [ha])] at h
      obtain rfl := Option.some.inj h
      have hany : (a :: l).any
          (fun x => x.transaction_id = p.transaction_id) = true := by
        simp [List.any_cons, ha]
      unfold applyUpsert
      rw [if_pos hany]
      simp only [List.map_cons]
      rw [List.find?_cons_of_pos _ (by simp [ha])]
      simp [ha]
    · rw [List.find?_cons_of_neg _ (by simp [ha])] at h
      have hany_l : l.any
          (fun x => x.transaction_id = p.transaction_id) = true :=
        any_of_find?_eq_some h
      have hupd := ih h
      unfold applyUpsert at hupd ⊢
      rw [if_pos hany_l] at hupd
      rw [if_pos (by simp [List.any_cons, hany_l])]
      simp only [List.map_cons]
      rw [List.find?_cons_of_neg _ (by simp [ha])]
      exact hupd

lemma length_applyUpsert_of_any (subs : List SubscriptionRecord)
    (p : SubscriptionInsert)
    (h : subs.any (fun x => x.transaction_id = p.transaction_id) = true) :
    (applyUpsert subs p).length = subs.length := by
  unfold applyUpsert
  rw [if_pos h]
  exact List.length_map subs _

lemma filter_length_applyUpsert_of_any (subs : List SubscriptionRecord)
    (p : SubscriptionInsert)
    (h : subs.any (fun x => x.transaction_id = p.transaction_id) = true) :
    ((applyUpsert subs p).filter
        (fun x => x.transaction_id = p.transaction_id)).length =
      (subs.filter (fun x => x.transaction_id = p.transaction_id)).length := by
  unfold applyUpsert
  rw [if_pos h, List.filter_map]
  rw [List.length_map]
  congr 1
  apply List.filter_congr
  intro x _
  by_cases hx : x.transaction_id = p.transaction_id <;> simp [hx]

lemma filter_applyUpsert_of_not_any (subs : List SubscriptionRecord)
    (p : SubscriptionInsert)
    (h : subs.any (fun x => x.transaction_id = p.transaction_id) = false) :
    (applyUpsert subs p).filter
        (fun x => x.transaction_id = p.transaction_id) =
      [{ user_id := p.user_id
         product_id := p.product_id
         transaction_id := p.transaction_id
         environment := p.environment
         purchased_at := p.purchased_at
         expired := false }] := by
  unfold applyUpsert
  rw [if_neg (by simp [h]), List.filter_append]
  have hnil : subs.filter
      (fun x => x.transaction_id = p.transaction_id) = [] :=
    List.filter_eq_nil_iff.mpr (List.any_eq_false.mp h)
  rw [hnil]
  simp

lemma one_le_filter_length_of_any (subs : List SubscriptionRecord)
    (p : SubscriptionRecord → Bool) (h : subs.any p = true) :
    1 ≤ (subs.filter p).length := by
  obtain ⟨x, hx, hpx⟩ := List.any_eq_true.mp h
  exact List.length_pos.mpr
    (List.ne_nil_of_mem (List.mem_filter.mpr ⟨hx, hpx⟩))

lemma any_of_one_le_filter_length (subs : List SubscriptionRecord)
    (p : SubscriptionRecord → Bool) (h : 1 ≤ (subs.filter p).length) :
    subs.any p = true := by
  have hne : subs.filter p ≠ [] := by
    intro hnil
    rw [hnil] at h
    simp at h
  obtain ⟨x, hx⟩ := List.exists_mem_of_ne_nil _ hne
  obtain ⟨hmem, hpx⟩ := List.mem_filter.mp hx
  exact List.any_eq_true.mpr ⟨x, hmem, hpx⟩

lemma hpOnlySetTrue_refl (s : Store) : hpOnlySetTrue s s :=
  ⟨rfl, fun _ _ _ => Or.inl rfl⟩

lemma hpOnlySetTrue_trans {s1 s2 s3 : Store} (h12 : hpOnlySetTrue s1 s2)
    (h23 : hpOnlySetTrue s2 s3) : hpOnlySetTrue s1 s3 := by
  obtain ⟨l12, p12⟩ := h12
  obtain ⟨l23, p23⟩ := h23
  refine ⟨l23.trans l12, ?_⟩
  intro i h1 h3
  have h2 : i < s2.profiles.length := by rw [l12]; exact h1
  rcases p23 i h2 h3 with he | ht
  · rcases p12 i h1 h2 with he1 | ht1
    · exact Or.inl (he.trans he1)
    · exact Or.inr (he.trans ht1)
  · exact Or.inr ht

lemma hpOnlySetTrue_updateUserSubscriptionStatus (env : DbEnv) (now : Nat)
    (s : Store) (uid : String) (b : Bool) :
    hpOnlySetTrue s (updateUserSubscriptionStatus env now s uid b).2 := by
  unfold updateUserSubscriptionStatus
  split
  · refine ⟨List.length_map _ _, ?_⟩
    intro i h h'
    left
    rw [List.getElem_map]
    by_cases hu : (s.profiles[i]).user_id = uid <;> simp [hu]
  · exact hpOnlySetTrue_refl s

lemma hpOnlySetTrue_setHasPurchasedSubscriptionBefore (env : DbEnv)
    (s : Store) (uid : String) :
    hpOnlySetTrue s (setHasPurchasedSubscriptionBefore env s uid).2 := by
  unfold setHasPurchasedSubscriptionBefore
  split
  · refine ⟨List.length_map _ _, ?_⟩
    intro i h h'
    rw [List.getElem_map]
    by_cases hu : (s.profiles[i]).user_id = uid <;> simp [hu]
  · exact hpOnlySetTrue_refl s

lemma hpOnlySetTrue_insertSubscriptionRecord (env : DbEnv) (s : Store)
    (p : SubscriptionInsert) :
    hpOnlySetTrue s (insertSubscriptionRecord env s p).2 := by
  unfold insertSubscriptionRecord
  split
  · exact ⟨rfl, fun _ _ _ => Or.inl rfl⟩
  · exact hpOnlySetTrue_refl s

lemma hpOnlySetTrue_updateSubscriptionExpiredStatus (env : DbEnv) (s : Store)
    (tid : String) (b : Bool) :
    hpOnlySetTrue s (updateSubscriptionExpiredStatus env s tid b).2 := by
  unfold updateSubscriptionExpiredStatus
  split
  · exact ⟨rfl, fun _ _ _ => Or.inl rfl⟩
  · exact hpOnlySetTrue_refl s

lemma hpOnlySetTrue_handleSubscriptionActivated (ctx : Ctx) (s : Store)
    (uid : String) (t : JWSTransactionDecodedPayload) :
    hpOnlySetTrue s (handleSubscriptionActivated ctx s uid t) :=
  hpOnlySetTrue_trans
    (hpOnlySetTrue_updateUserSubscriptionStatus ctx.db ctx.now s uid true)
    (hpOnlySetTrue_setHasPurchasedSubscriptionBefore ctx.db _ uid)

lemma hpOnlySetTrue_handleSubscriptionRenewed (ctx : Ctx) (s : Store)
    (uid : String) (t : JWSTransactionDecodedPayload) :
    hpOnlySetTrue s (handleSubscriptionRenewed ctx s uid t) := by
  cases ho : t.originalTransactionId with
  | none =>
    simp only [handleSubscriptionRenewed, ho]
    exact hpOnlySetTrue_updateUserSubscriptionStatus ctx.db ctx.now s uid true
  | some tid =>
    cases hp : t.productId with
    | none =>
      simp only [handleSubscriptionRenewed, ho, hp]
      exact hpOnlySetTrue_updateUserSubscriptionStatus ctx.db ctx.now s
        uid true
    | some pid =>
      simp only [handleSubscriptionRenewed, ho, hp]
      exact hpOnlySetTrue_trans
        (hpOnlySetTrue_insertSubscriptionRecord ctx.db s _)
        (hpOnlySetTrue_updateUserSubscriptionStatus ctx.db ctx.now _ uid true)

lemma hpOnlySetTrue_processNotification (ctx : Ctx)
    (notif : WebhookNotification) (d : DecodeOutcome) (store : Store) :
    hpOnlySetTrue store (processNotification ctx notif d store).2 := by
  cases hi : notif.signedTransactionInfo with
  | none =>
    simp only [processNotification, hi]
    exact hpOnlySetTrue_refl store
  | some sig =>
    cases d with
    | failure =>
      simp only [processNotification, hi]
      exact hpOnlySetTrue_refl store
    | nullResult =>
      simp only [processNotification, hi]
      exact hpOnlySetTrue_refl store
    | ok t =>
      simp only [processNotification, hi]
      cases hrec : getSubscriptionByTransactionId store
          (t.originalTransactionId.getD "") with
      | none =>
        simp only [hrec]
        exact hpOnlySetTrue_refl store
      | some existing =>
        simp only [hrec]
        split
        · exact hpOnlySetTrue_handleSubscriptionActivated ctx store
            existing.user_id t
        · split
          · exact hpOnlySetTrue_handleSubscriptionRenewed ctx store
              existing.user_id t
          · split
            · exact hpOnlySetTrue_updateUserSubscriptionStatus ctx.db
                ctx.now store existing.user_id false
            · split
              · exact hpOnlySetTrue_refl store
              · split
                · exact hpOnlySetTrue_updateUserSubscriptionStatus ctx.db
                    ctx.now store existing.user_id false
                · exact hpOnlySetTrue_refl store

lemma hpOnlySetTrue_validateReceipt (ctx : Ctx) (d : DecodeOutcome)
    (req : ValidationRequest) (store : Store) :
    hpOnlySetTrue store (validateReceipt ctx d req store).2 := by
  cases hp : req.purchaseToken with
  | none =>
    simp only [validateReceipt, hp]
    exact hpOnlySetTrue_refl store
  | some tok =>
    cases d with
    | failure =>
      simp only [validateReceipt, hp]
      exact hpOnlySetTrue_refl store
    | nullResult =>
      simp only [validateReceipt, hp]
      exact hpOnlySetTrue_refl store
    | ok t =>
      simp only [validateReceipt, hp]
      split
      · exact hpOnlySetTrue_refl store
      · split
        · split
          · exact hpOnlySetTrue_trans
              (hpOnlySetTrue_insertSubscriptionRecord ctx.db store _)
              (hpOnlySetTrue_trans
                (hpOnlySetTrue_updateUserSubscriptionStatus ctx.db ctx.now _
                  req.userId true)
                (hpOnlySetTrue_setHasPurchasedSubscriptionBefore ctx.db _
                  req.userId))
          · exact hpOnlySetTrue_refl store
        · exact hpOnlySetTrue_refl store

/-- An unattributable decoded transaction makes processNotification report
failure and leave the store untouched. -/
lemma processNotification_of_no_record (ctx : Ctx)
    (notif : WebhookNotification) (t : JWSTransactionDecodedPayload)
    (store : Store)
    (h : getSubscriptionByTransactionId store
        (t.originalTransactionId.getD "") = none) :
    processNotification ctx notif (.ok t) store = (false, store) := by
  cases hi : notif.signedTransactionInfo <;>
    simp [processNotification, hi, h]

/-! ## Claim theorems -/

/-- C3: a transaction is computed active iff its productId is a recognized
subscription product and it either has no expiresDate or its expiresDate is
strictly later than the validation time; a transaction expiring exactly at
validation time is inactive, and an absent-expiry transaction with a
recognized product is active. -/
theorem activity_characterization (t : JWSTransactionDecodedPayload)
    (now : Nat) :
    (isSubscriptionActive t now = true ↔
      ∃ pid, t.productId = some pid ∧ pid ∈ SUBSCRIPTION_PRODUCTS ∧
        (t.expiresDate = none ∨ ∃ e, t.expiresDate = some e ∧ now < e)) ∧
    (t.expiresDate = some now → isSubscriptionActive t now = false) ∧
    (t.expiresDate = none →
      (∃ pid, t.productId = some pid ∧ pid ∈ SUBSCRIPTION_PRODUCTS) →
      isSubscriptionActive t now = true) := by
  refine ⟨?_, ?_, ?_⟩
  · cases hp : t.productId with
    | none => simp [isSubscriptionActive, hp]
    | some pid =>
      by_cases hc : SUBSCRIPTION_PRODUCTS.contains pid
      · have hmem : pid ∈ SUBSCRIPTION_PRODUCTS := List.elem_iff.mp hc
        cases he : t.expiresDate with
        | none => simp [isSubscriptionActive, hp, hc, he, hmem]
        | some e => simp [isSubscriptionActive, hp, hc, he, hmem]
      · have hmem : pid ∉ SUBSCRIPTION_PRODUCTS := fun h =>
          hc (List.elem_iff.mpr h)
        simp [isSubscriptionActive, hp, hc, hmem]
  · intro he
    cases hp : t.productId with
    | none => simp [isSubscriptionActive, hp]
    | some pid =>
      by_cases hc : SUBSCRIPTION_PRODUCTS.contains pid <;>
        simp [isSubscriptionActive, hp, hc, he]
  · rintro he ⟨pid, hp, hmem⟩
    have hc : SUBSCRIPTION_PRODUCTS.contains pid = true := List.elem_iff.mpr hmem
    simp [isSubscriptionActive, hp, hc, he, hmem]

/-- Witness for C3: the boundary input of the spec — a recognized product
expiring exactly at the validation instant is inactive. -/
theorem activity_characterization_witness :
    isSubscriptionActive exTxn 2000 = false :=
  (activity_characterization exTxn 2000).2.1 rfl

/-- C1: when the decoded transaction's appAccountToken differs from the
requesting userId, validateReceipt reports failure (with the ownership
mismatch error whenever a purchase token was supplied) and performs no store
mutation. -/
theorem ownership_mismatch_rejected (ctx : Ctx)
    (t : JWSTransactionDecodedPayload) (req : ValidationRequest)
    (store : Store) (hm : t.appAccountToken ≠ some req.userId) :
    (validateReceipt ctx (.ok t) req store).1.success = false ∧
    (validateReceipt ctx (.ok t) req store).2 = store ∧
    (req.purchaseToken ≠ none →
      (validateReceipt ctx (.ok t) req store).1.error =
        some "Transaction does not belong to this user") := by
  cases h : req.purchaseToken with
  | none => simp [validateReceipt, h, noReceiptResponse]
  | some tok => simp [validateReceipt, h, hm]

/-- Witness for C1 at a concrete mismatching pair of users. -/
theorem ownership_mismatch_rejected_witness :
    (validateReceipt exCtx (.ok exTxn)
        { exReq with userId := "userB" } exStoreEmpty).1.success = false ∧
    (validateReceipt exCtx (.ok exTxn)
        { exReq with userId := "userB" } exStoreEmpty).2 = exStoreEmpty := by
  have h := ownership_mismatch_rejected exCtx exTxn
    { exReq with userId := "userB" } exStoreEmpty (by decide)
  exact ⟨h.1, h.2.1⟩

/-- C7: a notification whose decoded transaction matches no stored
subscription record reports failure and mutates nothing. -/
theorem unattributable_notification_no_mutation (ctx : Ctx)
    (notif : WebhookNotification) (t : JWSTransactionDecodedPayload)
    (store : Store)
    (h : getSubscriptionByTransactionId store
        (t.originalTransactionId.getD "") = none) :
    processNotification ctx notif (.ok t) store = (false, store) :=
  processNotification_of_no_record ctx notif t store h

/-- Witness for C7: an EXPIRED notification against an empty subscriptions
table. -/
theorem unattributable_notification_no_mutation_witness :
    processNotification exCtx exExpiredNotif (.ok exTxn) exStoreEmpty =
      (false, exStoreEmpty) :=
  unattributable_notification_no_mutation exCtx exExpiredNotif exTxn
    exStoreEmpty (by decide)

/-- C10: a transaction computed active whose payload lacks an
originalTransactionId makes validateReceipt answer full success with
subscriptionActive = true while writing nothing to the store. -/
theorem active_without_id_no_persistence (ctx : Ctx)
    (t : JWSTransactionDecodedPayload) (req : ValidationRequest)
    (store : Store) (htok : req.purchaseToken.isSome = true)
    (hown : t.appAccountToken = some req.userId)
    (hactive : isSubscriptionActive t ctx.now = true)
    (hid : t.originalTransactionId = none) :
    validateReceipt ctx (.ok t) req store =
      ({ success := true, subscriptionActive := true, transactionId := none
         expiresDate := t.expiresDate, error := none }, store) := by
  obtain ⟨tok, h⟩ := Option.isSome_iff_exists.mp htok
  simp [validateReceipt, h, hown, hid, hactive]

/-- Witness for C10: an active weekly transaction without an
originalTransactionId is reported active but never persisted. -/
theorem active_without_id_no_persistence_witness :
    validateReceipt exCtx (.ok { exTxn with originalTransactionId := none })
        exReq exStoreEmpty =
      ({ success := true, subscriptionActive := true, transactionId := none
         expiresDate := some 2000, error := none }, exStoreEmpty) :=
  active_without_id_no_persistence exCtx
    { exTxn with originalTransactionId := none } exReq exStoreEmpty
    (by decide) (by decide) (by decide) (by decide)

/-- C5 counterexample: with the subscribed-flag update failing after a
successful record insert, validateReceipt still answers plain full success
(`success := true`, no error) — the very response the all-succeeding run
produces — so the degraded outcome is not distinguishable. -/
theorem degraded_success_counterexample :
    (validateReceipt exCtxFlagFail (.ok exTxn) exReq exStoreEmpty).1 =
      { success := true, subscriptionActive := true
        transactionId := some "tx1", expiresDate := some 2000
        error := none } ∧
    (validateReceipt exCtxFlagFail (.ok exTxn) exReq exStoreEmpty).1 =
      (validateReceipt exCtx (.ok exTxn) exReq exStoreEmpty).1 := by
  constructor <;> rfl

/-- C5 amended: the response of validateReceipt does not depend on which
database calls succeed at all; a flag-update failure after a successful
insert is invisible in the result (it is only logged inside the database
layer). -/
theorem response_ignores_db_outcome (ctx : Ctx) (db' : DbEnv)
    (d : DecodeOutcome) (req : ValidationRequest) (store : Store) :
    (validateReceipt { ctx with db := db' } d req store).1 =
      (validateReceipt ctx d req store).1 := by
  cases h : req.purchaseToken with
  | none => simp [validateReceipt, h]
  | some tok =>
    cases d with
    | failure => simp [validateReceipt, h]
    | nullResult => simp [validateReceipt, h]
    | ok t =>
      by_cases hm : t.appAccountToken ≠ some req.userId <;>
        simp [validateReceipt, h, hm]

/-- C6 counterexample: a delivery whose embedded transaction matches no
stored record comes back as HTTP 500 with success := false, not as the 200
with success := true the claim asserts. -/
theorem unattributable_webhook_counterexample :
    (appleWebhookRoute exCtx true (.ok exExpiredNotif) (.ok exTxn)
        exStoreEmpty).1 = { status := 500, success := false } ∧
    ¬((appleWebhookRoute exCtx true (.ok exExpiredNotif) (.ok exTxn)
        exStoreEmpty).1.status = 200 ∧
      (appleWebhookRoute exCtx true (.ok exExpiredNotif) (.ok exTxn)
        exStoreEmpty).1.success = true) := by
  exact ⟨rfl, by decide⟩

/-- C6 amended: a webhook delivery whose embedded transaction has no
matching stored subscription record is answered with HTTP 500 and
success := false (the route maps every processing failure, the
no-attributable-user reject case included, to 500), with no store mutation;
400 is reserved for a malformed (non-string) envelope and 200 with
success := true for processing that reports success. -/
theorem unattributable_webhook_http (ctx : Ctx) (n : WebhookNotification)
    (t : JWSTransactionDecodedPayload) (store : Store)
    (h : getSubscriptionByTransactionId store
        (t.originalTransactionId.getD "") = none) :
    appleWebhookRoute ctx true (.ok n) (.ok t) store =
      ({ status := 500, success := false }, store) ∧
    appleWebhookRoute ctx false (.ok n) (.ok t) store =
      ({ status := 400, success := false }, store) := by
  constructor
  · simp [appleWebhookRoute, handleWebhookNotification,
      processNotification_of_no_record ctx n t store h]
  · simp [appleWebhookRoute]

/-- Witness for C6 (amended) at a concrete unattributable delivery. -/
theorem unattributable_webhook_http_witness :
    appleWebhookRoute exCtx true (.ok exRenewNotif) (.ok exTxn)
        exStoreEmpty = ({ status := 500, success := false }, exStoreEmpty) :=
  (unattributable_webhook_http exCtx exRenewNotif exTxn exStoreEmpty
    (by decide)).1

/-- C8 counterexample: an attributable EXPIRED notification is processed
successfully, yet the stored subscription record — expired := false
included — is exactly as before; no write to the record's expired column
happens. -/
theorem expired_field_not_maintained_counterexample :
    (processNotification exCtx exExpiredNotif (.ok exTxn) exStoreOne).1 =
      true ∧
    (processNotification exCtx exExpiredNotif (.ok exTxn)
        exStoreOne).2.subscriptions = [exRecord] ∧
    exRecord.expired = false := by
  refine ⟨rfl, rfl, rfl⟩

/-- C8 amended: processing an EXPIRED or DID_FAIL_TO_RENEW notification for
an attributable transaction sets the user's subscribed flag to false and
leaves the subscriptions table — the record's expired field included —
completely unchanged; updateSubscriptionExpiredStatus exists in the
database layer but no service code path ever invokes it. -/
theorem expired_notification_effect (ctx : Ctx)
    (notif : WebhookNotification) (t : JWSTransactionDecodedPayload)
    (store : Store) (rec : SubscriptionRecord)
    (hrec : getSubscriptionByTransactionId store
        (t.originalTransactionId.getD "") = some rec)
    (hinfo : notif.signedTransactionInfo ≠ none)
    (htype : notif.notificationType = "EXPIRED" ∨
      notif.notificationType = "DID_FAIL_TO_RENEW") :
    (processNotification ctx notif (.ok t) store).1 = true ∧
    (processNotification ctx notif (.ok t) store).2.subscriptions =
      store.subscriptions ∧
    (ctx.db.updateSubscribedOk = true →
      ∀ q ∈ (processNotification ctx notif (.ok t) store).2.profiles,
        q.user_id = rec.user_id → q.subscribed = false) := by
  cases hi : notif.signedTransactionInfo with
  | none => exact absurd hi hinfo
  | some sig =>
    rcases htype with h | h <;>
    · simp only [processNotification, hi, hrec, h]
      simp only [handleSubscriptionExpired]
      simp
      refine ⟨subscriptions_updateUserSubscriptionStatus _ _ _ _ _, ?_⟩
      intro hok q hq huid
      exact subscribed_of_mem_updateUserSubscriptionStatus ctx.db ctx.now
        store rec.user_id false hok q hq huid

/-- Witness for C8 (amended) at a concrete attributable EXPIRED
notification. -/
theorem expired_notification_effect_witness :
    (processNotification exCtx exExpiredNotif (.ok exTxn) exStoreOne).1 =
      true :=
  (expired_notification_effect exCtx exExpiredNotif exTxn exStoreOne
    exRecord (by decide) (by decide) (Or.inl rfl)).1

/-- C4: the dispatch table for attributable notifications. SUBSCRIBED sets
subscribed and has_purchased_subscription_before to true; DID_RENEW upserts
the renewal record and sets subscribed to true; EXPIRED, DID_FAIL_TO_RENEW
and REFUND set subscribed to false; DID_CHANGE_RENEWAL_STATUS mutates
nothing; an unrecognized notificationType mutates nothing and still reports
success. -/
theorem notification_dispatch_table (ctx : Ctx)
    (notif : WebhookNotification) (t : JWSTransactionDecodedPayload)
    (store : Store) (rec : SubscriptionRecord) (sig : String)
    (hok1 : ctx.db.insertOk = true) (hok2 : ctx.db.updateSubscribedOk = true)
    (hok3 : ctx.db.setEverPurchasedOk = true)
    (hinfo : notif.signedTransactionInfo = some sig)
    (hrec : getSubscriptionByTransactionId store
        (t.originalTransactionId.getD "") = some rec) :
    (notif.notificationType = "SUBSCRIBED" →
      (processNotification ctx notif (.ok t) store).1 = true ∧
      (processNotification ctx notif (.ok t) store).2.subscriptions =
        store.subscriptions ∧
      ∀ q ∈ (processNotification ctx notif (.ok t) store).2.profiles,
        q.user_id = rec.user_id →
          q.subscribed = true ∧ q.has_purchased_subscription_before = true) ∧
    (notif.notificationType = "DID_RENEW" →
      (processNotification ctx notif (.ok t) store).1 = true ∧
      (∀ tid pid, t.originalTransactionId = some tid →
        t.productId = some pid →
        (processNotification ctx notif (.ok t) store).2.subscriptions =
          applyUpsert store.subscriptions
            { user_id := rec.user_id, product_id := pid
              transaction_id := tid, environment := ctx.appleEnvironment
              purchased_at := t.purchaseDate.getD ctx.now }) ∧
      ∀ q ∈ (processNotification ctx notif (.ok t) store).2.profiles,
        q.user_id = rec.user_id → q.subscribed = true) ∧
    ((notif.notificationType = "EXPIRED" ∨
      notif.notificationType = "DID_FAIL_TO_RENEW" ∨
      notif.notificationType = "REFUND") →
      (processNotification ctx notif (.ok t) store).1 = true ∧
      (processNotification ctx notif (.ok t) store).2.subscriptions =
        store.subscriptions ∧
      ∀ q ∈ (processNotification ctx notif (.ok t) store).2.profiles,
        q.user_id = rec.user_id → q.subscribed = false) ∧
    (notif.notificationType = "DID_CHANGE_RENEWAL_STATUS" →
      processNotification ctx notif (.ok t) store = (true, store)) ∧
    (notif.notificationType ∉ ["SUBSCRIBED", "DID_RENEW", "EXPIRED",
        "DID_FAIL_TO_RENEW", "DID_CHANGE_RENEWAL_STATUS", "REFUND"] →
      processNotification ctx notif (.ok t) store = (true, store)) := by
  refine ⟨?_, ?_, ?_, ?_, ?_⟩
  · intro h
    simp only [processNotification, hinfo, hrec, h,
      handleSubscriptionActivated]
    simp
    refine ⟨?_, ?_⟩
    · rw [subscriptions_setHasPurchasedSubscriptionBefore,
        subscriptions_updateUserSubscriptionStatus]
    · intro q hq huid
      obtain ⟨q0, hq0, hquid, hqsub⟩ :=
        mem_setHasPurchasedSubscriptionBefore_exists ctx.db _ rec.user_id q hq
      refine ⟨?_, ?_⟩
      · rw [hqsub]
        exact subscribed_of_mem_updateUserSubscriptionStatus ctx.db ctx.now
          store rec.user_id true hok2 q0 hq0 (by rw [← hquid, huid])
      · exact hp_of_mem_setHasPurchasedSubscriptionBefore ctx.db _
          rec.user_id hok3 q hq huid
  · intro h
    simp only [processNotification, hinfo, hrec, h,
      handleSubscriptionRenewed]
    simp
    refine ⟨?_, ?_⟩
    · intro tid pid htid hpid
      simp only [htid, hpid]
      rw [subscriptions_updateUserSubscriptionStatus,
        subscriptions_insertSubscriptionRecord_ok ctx.db store _ hok1]
    · intro q hq huid
      exact subscribed_of_mem_updateUserSubscriptionStatus ctx.db ctx.now
        _ rec.user_id true hok2 q hq huid
  · intro h
    have heff : (processNotification ctx notif (.ok t) store).1 = true ∧
        (processNotification ctx notif (.ok t) store).2 =
          (updateUserSubscriptionStatus ctx.db ctx.now store rec.user_id
            false).2 := by
      rcases h with h | h | h <;>
      · simp only [processNotification, hinfo, hrec, h,
          handleSubscriptionExpired, handleRefund]
        simp
    refine ⟨heff.1, ?_, ?_⟩
    · rw [heff.2, subscriptions_updateUserSubscriptionStatus]
    · intro q hq huid
      rw [heff.2] at hq
      exact subscribed_of_mem_updateUserSubscriptionStatus ctx.db ctx.now
        store rec.user_id false hok2 q hq huid
  · intro h
    simp [processNotification, hinfo, hrec, h, handleRenewalStatusChange]
  · intro h
    simp only [List.mem_cons, List.not_mem_nil, or_false, not_or] at h
    obtain ⟨h1, h2, h3, h4, h5, h6⟩ := h
    simp [processNotification, hinfo, hrec, h1, h2, h3, h4, h5, h6]

/-- Witness for C4: a concrete attributable SUBSCRIBED notification reports
success. -/
theorem notification_dispatch_table_witness :
    (processNotification exCtx exSubscribedNotif (.ok exTxn) exStoreOne).1 =
      true :=
  ((notification_dispatch_table exCtx exSubscribedNotif exTxn exStoreOne
    exRecord "sig" rfl rfl rfl rfl (by decide)).1 rfl).1

/-- One attributable DID_RENEW processing step: reports success, keeps the
number of stored records, merges the renewal into the record that attributed
it (keyed by originalTransactionId, owner unchanged), and sets the owner's
subscribed flag. -/
lemma renew_step (ctx : Ctx) (notif : WebhookNotification)
    (t : JWSTransactionDecodedPayload) (tid pid sig : String) (store : Store)
    (rec : SubscriptionRecord)
    (hok1 : ctx.db.insertOk = true) (hok2 : ctx.db.updateSubscribedOk = true)
    (htype : notif.notificationType = "DID_RENEW")
    (hinfo : notif.signedTransactionInfo = some sig)
    (hid : t.originalTransactionId = some tid) (hpid : t.productId = some pid)
    (hrec : getSubscriptionByTransactionId store tid = some rec) :
    (processNotification ctx notif (.ok t) store).1 = true ∧
    (processNotification ctx notif (.ok t) store).2.subscriptions.length =
      store.subscriptions.length ∧
    getSubscriptionByTransactionId
        (processNotification ctx notif (.ok t) store).2 tid =
      some { rec with
             product_id := pid
             environment := ctx.appleEnvironment
             purchased_at := t.purchaseDate.getD ctx.now } ∧
    ∀ q ∈ (processNotification ctx notif (.ok t) store).2.profiles,
      q.user_id = rec.user_id → q.subscribed = true := by
  have hkey : t.originalTransactionId.getD "" = tid := by
    rw [hid]; rfl
  have hrec' : getSubscriptionByTransactionId store
      (t.originalTransactionId.getD "") = some rec := by
    rw [hkey]; exact hrec
  have hred : processNotification ctx notif (.ok t) store =
      (true, (updateUserSubscriptionStatus ctx.db ctx.now
        (insertSubscriptionRecord ctx.db store
          { user_id := rec.user_id
            product_id := pid
            transaction_id := tid
            environment := ctx.appleEnvironment
            purchased_at := t.purchaseDate.getD ctx.now }).2
        rec.user_id true).2) := by
    simp only [processNotification, hinfo, hrec', htype,
      handleSubscriptionRenewed, hid, hpid]
    simp [hrec]
  rw [hred]
  have hfind : store.subscriptions.find?
      (fun x => x.transaction_id = tid) = some rec := hrec
  have hany : store.subscriptions.any
      (fun x => x.transaction_id = tid) = true :=
    any_of_find?_eq_some hfind
  refine ⟨rfl, ?_, ?_, ?_⟩
  · rw [subscriptions_updateUserSubscriptionStatus,
      subscriptions_insertSubscriptionRecord_ok ctx.db store _ hok1]
    exact length_applyUpsert_of_any store.subscriptions _ hany
  · show ((updateUserSubscriptionStatus ctx.db ctx.now _ rec.user_id
      true).2.subscriptions.find? (fun x => x.transaction_id = tid)) = _
    rw [subscriptions_updateUserSubscriptionStatus,
      subscriptions_insertSubscriptionRecord_ok ctx.db store _ hok1]
    exact find?_applyUpsert store.subscriptions
      { user_id := rec.user_id
        product_id := pid
        transaction_id := tid
        environment := ctx.appleEnvironment
        purchased_at := t.purchaseDate.getD ctx.now } rec hfind
  · intro q hq huid
    exact subscribed_of_mem_updateUserSubscriptionStatus ctx.db ctx.now
      _ rec.user_id true hok2 q hq huid

/-- C2 counterexample: a store holding the original record for tx1, after
the same DID_RENEW notification is processed three times, still holds
exactly the one original record — not one additional record beyond it. -/
theorem renewal_redelivery_counterexample :
    exStoreOne.subscriptions.length = 1 ∧
    (processNotification exCtx exRenewNotif (.ok exTxn)
      (processNotification exCtx exRenewNotif (.ok exTxn)
        (processNotification exCtx exRenewNotif (.ok exTxn)
          exStoreOne).2).2).2.subscriptions.length = 1 ∧
    ¬((processNotification exCtx exRenewNotif (.ok exTxn)
      (processNotification exCtx exRenewNotif (.ok exTxn)
        (processNotification exCtx exRenewNotif (.ok exTxn)
          exStoreOne).2).2).2.subscriptions.length =
      exStoreOne.subscriptions.length + 1) := by
  refine ⟨rfl, rfl, by decide⟩

/-- C2 amended: upserting the same payload twice leaves exactly one record
with its transaction_id and the second call reports a row, not an error;
processing the same attributable DID_RENEW notification three times reports
success each time, leaves ZERO additional records — the renewal upsert is
keyed by originalTransactionId and therefore merges into the record that
attributed the notification — and leaves the owner's subscribed flag true
after each call. -/
theorem renewal_idempotent (ctx : Ctx) (notif : WebhookNotification)
    (t : JWSTransactionDecodedPayload) (tid pid sig : String)
    (store : Store) (rec : SubscriptionRecord) (p : SubscriptionInsert)
    (hok1 : ctx.db.insertOk = true) (hok2 : ctx.db.updateSubscribedOk = true)
    (hcount : (store.subscriptions.filter
        (fun x => x.transaction_id = p.transaction_id)).length ≤ 1)
    (htype : notif.notificationType = "DID_RENEW")
    (hinfo : notif.signedTransactionInfo = some sig)
    (hid : t.originalTransactionId = some tid) (hpid : t.productId = some pid)
    (hrec : getSubscriptionByTransactionId store tid = some rec) :
    (((insertSubscriptionRecord ctx.db store p).2.subscriptions.filter
        (fun x => x.transaction_id = p.transaction_id)).length = 1 ∧
     ((insertSubscriptionRecord ctx.db
          (insertSubscriptionRecord ctx.db store p).2 p).2.subscriptions.filter
        (fun x => x.transaction_id = p.transaction_id)).length = 1 ∧
     (insertSubscriptionRecord ctx.db
        (insertSubscriptionRecord ctx.db store p).2 p).1.isSome = true) ∧
    ((processNotification ctx notif (.ok t) store).1 = true ∧
     (processNotification ctx notif (.ok t) store).2.subscriptions.length =
       store.subscriptions.length ∧
     (∀ q ∈ (processNotification ctx notif (.ok t) store).2.profiles,
       q.user_id = rec.user_id → q.subscribed = true)) ∧
    ((processNotification ctx notif (.ok t)
        (processNotification ctx notif (.ok t) store).2).1 = true ∧
     (processNotification ctx notif (.ok t)
        (processNotification ctx notif (.ok t) store).2).2.subscriptions.length =
       store.subscriptions.length ∧
     (∀ q ∈ (processNotification ctx notif (.ok t)
        (processNotification ctx notif (.ok t) store).2).2.profiles,
       q.user_id = rec.user_id → q.subscribed = true)) ∧
    ((processNotification ctx notif (.ok t)
        (processNotification ctx notif (.ok t)
          (processNotification ctx notif (.ok t) store).2).2).1 = true ∧
     (processNotification ctx notif (.ok t)
        (processNotification ctx notif (.ok t)
          (processNotification ctx notif (.ok t)
            store).2).2).2.subscriptions.length =
       store.subscriptions.length ∧
     (∀ q ∈ (processNotification ctx notif (.ok t)
        (processNotification ctx notif (.ok t)
          (processNotification ctx notif (.ok t) store).2).2).2.profiles,
       q.user_id = rec.user_id → q.subscribed = true)) := by
  have hA : ((insertSubscriptionRecord ctx.db store p).2.subscriptions.filter
      (fun x => x.transaction_id = p.transaction_id)).length = 1 := by
    rw [subscriptions_insertSubscriptionRecord_ok ctx.db store p hok1]
    by_cases hany : store.subscriptions.any
        (fun x => x.transaction_id = p.transaction_id) = true
    · have hge := one_le_filter_length_of_any store.subscriptions _ hany
      have := filter_length_applyUpsert_of_any store.subscriptions p hany
      omega
    · have hany' : store.subscriptions.any
          (fun x => x.transaction_id = p.transaction_id) = false := by
        revert hany
        cases store.subscriptions.any
          (fun x => x.transaction_id = p.transaction_id) <;> simp
      rw [filter_applyUpsert_of_not_any store.subscriptions p hany']
      rfl
  have hany1 : (insertSubscriptionRecord ctx.db
      store p).2.subscriptions.any
        (fun x => x.transaction_id = p.transaction_id) = true :=
    any_of_one_le_filter_length _ _ (le_of_eq hA.symm)
  have hA2 : ((insertSubscriptionRecord ctx.db
      (insertSubscriptionRecord ctx.db store p).2 p).2.subscriptions.filter
        (fun x => x.transaction_id = p.transaction_id)).length = 1 := by
    rw [subscriptions_insertSubscriptionRecord_ok ctx.db _ p hok1]
    rw [filter_length_applyUpsert_of_any _ p hany1]
    exact hA
  have hA3 : (insertSubscriptionRecord ctx.db
      (insertSubscriptionRecord ctx.db store p).2 p).1.isSome = true := by
    unfold insertSubscriptionRecord
    rw [if_pos hok1]
    simp only
    refine List.find?_isSome.mpr ?_
    have h1 := any_of_one_le_filter_length _ _ (le_of_eq hA2.symm)
    rw [subscriptions_insertSubscriptionRecord_ok ctx.db _ p hok1] at h1
    exact List.any_eq_true.mp h1
  have h1 := renew_step ctx notif t tid pid sig store rec
    hok1 hok2 htype hinfo hid hpid hrec
  have h2 := renew_step ctx notif t tid pid sig
    (processNotification ctx notif (.ok t) store).2
    { rec with
      product_id := pid
      environment := ctx.appleEnvironment
      purchased_at := t.purchaseDate.getD ctx.now }
    hok1 hok2 htype hinfo hid hpid h1.2.2.1
  have h3 := renew_step ctx notif t tid pid sig
    (processNotification ctx notif (.ok t)
      (processNotification ctx notif (.ok t) store).2).2
    { { rec with
        product_id := pid
        environment := ctx.appleEnvironment
        purchased_at := t.purchaseDate.getD ctx.now } with
      product_id := pid
      environment := ctx.appleEnvironment
      purchased_at := t.purchaseDate.getD ctx.now }
    hok1 hok2 htype hinfo hid hpid h2.2.2.1
  refine ⟨⟨hA, hA2, hA3⟩, ⟨h1.1, h1.2.1, h1.2.2.2⟩,
    ⟨h2.1, ?_, h2.2.2.2⟩, ⟨h3.1, ?_, h3.2.2.2⟩⟩
  · rw [h2.2.1, h1.2.1]
  · rw [h3.2.1, h2.2.1, h1.2.1]

/-- Witness for C2 (amended) at the concrete redelivered DID_RENEW
notification. -/
theorem renewal_idempotent_witness :
    (processNotification exCtx exRenewNotif (.ok exTxn)
      exStoreOne).2.subscriptions.length =
      exStoreOne.subscriptions.length :=
  (renewal_idempotent exCtx exRenewNotif exTxn "tx1" weeklyProduct "sig"
    exStoreOne exRecord
    { user_id := "userA", product_id := weeklyProduct
      transaction_id := "tx1", environment := "Production"
      purchased_at := 500 }
    rfl rfl (by decide) rfl rfl rfl rfl (by decide)).2.1.2.1

/-- C9: has_purchased_subscription_before is monotonic across the whole
core — receipt validation, webhook processing, and every store operation
either leaves each profile's flag untouched or writes true into it; no
operation ever writes it to false, so once true it stays true. -/
theorem purchase_history_flag_monotonic :
    (∀ (ctx : Ctx) (d : DecodeOutcome) (req : ValidationRequest)
      (store : Store),
      hpOnlySetTrue store (validateReceipt ctx d req store).2) ∧
    (∀ (ctx : Ctx) (notif : WebhookNotification) (d : DecodeOutcome)
      (store : Store),
      hpOnlySetTrue store (processNotification ctx notif d store).2) ∧
    (∀ (ctx : Ctx) (nd : NotificationDecodeOutcome) (td : DecodeOutcome)
      (store : Store),
      hpOnlySetTrue store (handleWebhookNotification ctx nd td store).2) ∧
    (∀ (env : DbEnv) (store : Store) (p : SubscriptionInsert),
      hpOnlySetTrue store (insertSubscriptionRecord env store p).2) ∧
    (∀ (env : DbEnv) (now : Nat) (store : Store) (uid : String) (b : Bool),
      hpOnlySetTrue store (updateUserSubscriptionStatus env now store uid b).2) ∧
    (∀ (env : DbEnv) (store : Store) (uid : String),
      hpOnlySetTrue store (setHasPurchasedSubscriptionBefore env store uid).2) ∧
    (∀ (env : DbEnv) (store : Store) (tid : String) (b : Bool),
      hpOnlySetTrue store (updateSubscriptionExpiredStatus env store tid b).2) := by
  refine ⟨hpOnlySetTrue_validateReceipt, hpOnlySetTrue_processNotification,
    ?_, hpOnlySetTrue_insertSubscriptionRecord,
    hpOnlySetTrue_updateUserSubscriptionStatus,
    hpOnlySetTrue_setHasPurchasedSubscriptionBefore,
    hpOnlySetTrue_updateSubscriptionExpiredStatus⟩
  intro ctx nd td store
  cases nd with
  | failure => exact hpOnlySetTrue_refl store
  | nullResult => exact hpOnlySetTrue_refl store
  | ok n => exact hpOnlySetTrue_processNotification ctx n td store

/-- Witness for C9: a concrete full validate run only grows the flag. -/
theorem purchase_history_flag_monotonic_witness :
    hpOnlySetTrue exStoreEmpty
      (validateReceipt exCtx (.ok exTxn) exReq exStoreEmpty).2 :=
  purchase_history_flag_monotonic.1 exCtx (.ok exTxn) exReq exStoreEmpty

end Comms
